import Mathlib

/-!
Verification of the gedit Highlight Text plugin
(src/trunk/highlighttext/highlight_text.py).

The module defines two classes:
  * HighlightTextPlugin      -- loaded once; keeps `_instances`, a dict from
                                gedit window to HighlightTextWindowHelper.
  * HighlightTextWindowHelper -- one per window; inserts a menu action into the
                                 window's UI manager and wires the callback.

Shallow embedding.  Host objects (windows, documents, views, the gtk action
group sensitivity cells) live in an explicit global state `GState`; windows
are identified by natural numbers, action groups by natural-number ids into a
sensitivity heap.  Python attribute access on `None` (AttributeError), passing
`None` to the gtk manager calls (TypeError) and dict lookup failure (KeyError)
are modelled by an error component `Option PErr` threaded through each
operation; a `some` error means the Python call raised at that point and the
returned state is the state at the moment of the raise.  Logging calls are
pure observation (stdout) and are not modelled, except that `self._plugin.log()`
dereferences `self._plugin` and therefore raises when that field is `None`.
-/

/-- Errors a modelled Python operation can raise. -/
inductive PErr where
  | attributeError
  | typeError
  | keyError
deriving DecidableEq, Repr

/-- Search flags passed to `doc.set_search_text`.  The source uses
`flags = gedit.SEARCH_CASE_SENSITIVE` (line 227) and leaves
`SEARCH_ENTIRE_WORD` commented out (line 228). -/
structure SearchFlags where
  caseSensitive : Bool
  entireWord : Bool
deriving DecidableEq, Repr

/-- The flag value `gedit.SEARCH_CASE_SENSITIVE` alone: case-sensitive set,
entire-word unset. -/
def SEARCH_CASE_SENSITIVE : SearchFlags :=
  { caseSensitive := true, entireWord := false }

/-- A gedit document: whether a selection exists, the text between the
selection bounds, and the search text / flags last set on it (none if
`set_search_text` was never called). -/
structure Document where
  hasSelection : Bool
  selectionText : String
  searchText : Option (String × SearchFlags)
deriving DecidableEq, Repr

/-- The call `doc.get_has_selection()`. -/
def Document.get_has_selection (doc : Document) : Bool :=
  doc.hasSelection

/-- The call `doc.get_text(start_iter, end_iter)` where the iters are the selection
bounds returned by `doc.get_selection_bounds()`: the selected text. -/
def Document.selected_text (doc : Document) : String :=
  doc.selectionText

/-- The call `doc.set_search_text(text, flags)`. -/
def Document.set_search_text (doc : Document) (text : String) (flags : SearchFlags) : Document :=
  { doc with searchText := some (text, flags) }

/-- A gedit view; `view.get_editable()` reads the field. -/
structure View where
  editable : Bool
deriving DecidableEq, Repr

/-- The call `view.get_editable()`. -/
def View.get_editable (v : View) : Bool :=
  v.editable

/-- Host state of one gedit window: the active document and view (if any) and
the contents of its gtk UI manager relevant to the plugin: the inserted
action-group ids, the merge ids of added ui strings, and the next fresh merge
id that `add_ui_from_string` will return. -/
structure WindowState where
  activeDocument : Option Document
  activeView : Option View
  managerGroups : List Nat
  managerUis : List Nat
  nextMergeId : Nat
deriving DecidableEq, Repr

/-- Instance state of HighlightTextWindowHelper: the four attributes set in
`__init__` (lines 137, 139, 145, 147).  `window` holds a window id (None after
deactivation), `plugin` records whether `self._plugin` still references the
plugin root, `ui_id` the saved merge id, `action_group` the id of the gtk
action group object. -/
structure HighlightTextWindowHelper where
  window : Option Nat
  plugin : Bool
  ui_id : Option Nat
  action_group : Option Nat
deriving DecidableEq, Repr

/-- Global state: the host windows (by id), the sensitivity heap of gtk action
group objects (by id, `set_sensitive` writes it), the next fresh action-group
id, and the plugin root's `_instances` dict as an association list in
insertion order. -/
structure GState where
  windows : Nat → WindowState
  agSensitive : Nat → Bool
  nextGroupId : Nat
  instances : List (Nat × HighlightTextWindowHelper)

/-- Point update of a function out of Nat. -/
def updFn {α : Type} (f : Nat → α) (k : Nat) (v : α) : Nat → α :=
  fun x => if x = k then v else f x

/-- Replace one window's host state. -/
def GState.setWindow (s : GState) (wid : Nat) (ws : WindowState) : GState :=
  { s with windows := updFn s.windows wid ws }

/-- The call `action_group.set_sensitive(b)` on the group object with id `gid`. -/
def GState.setSensitive (s : GState) (gid : Nat) (b : Bool) : GState :=
  { s with agSensitive := updFn s.agSensitive gid b }

/-- Python dict lookup `m[w]` on the association list (returns the value of
the first — in a dict, only — entry with key `w`). -/
def pyLookup (w : Nat) : List (Nat × HighlightTextWindowHelper) → Option HighlightTextWindowHelper
  | [] => none
  | (k, v) :: rest => if k = w then some v else pyLookup w rest

/-- Python dict assignment `m[w] = h`: replace the entry if the key is
present, otherwise append. -/
def dictSet (m : List (Nat × HighlightTextWindowHelper)) (w : Nat)
    (h : HighlightTextWindowHelper) : List (Nat × HighlightTextWindowHelper) :=
  match pyLookup w m with
  | some _ => m.map (fun p => if p.1 = w then (w, h) else p)
  | none => m ++ [(w, h)]

/-- Python dict deletion `del m[w]`. -/
def dictDel (m : List (Nat × HighlightTextWindowHelper)) (w : Nat) :
    List (Nat × HighlightTextWindowHelper) :=
  m.filter (fun p => p.1 ≠ w)

/-- The key list of the dict. -/
def keys (m : List (Nat × HighlightTextWindowHelper)) : List Nat :=
  m.map Prod.fst

/-- HighlightTextWindowHelper.update_ui (lines 211-217).  The `_window`
parameter corresponds to the source's `window` argument, which the body never
uses: it reads `self._window` instead.  Condition (line 216):
`if doc and current_view and current_view.get_editable()`; on success it calls
`self._action_group.set_sensitive(True)`.  `self._plugin.log()` raises on a
cleared helper. -/
def HighlightTextWindowHelper.update_ui (h : HighlightTextWindowHelper) (_window : Nat)
    (s : GState) : GState × Option PErr :=
  if h.plugin = false then (s, some PErr.attributeError)
  else
    match h.window with
    | none => (s, some PErr.attributeError)
    | some wid =>
      let ws := s.windows wid
      match ws.activeDocument, ws.activeView with
      | some _, some v =>
        if v.get_editable then
          match h.action_group with
          | none => (s, some PErr.attributeError)
          | some gid => (s.setSensitive gid true, none)
        else (s, none)
      | some _, none => (s, none)
      | none, _ => (s, none)

/-- HighlightTextWindowHelper._get_text_selection (lines 231-240): returns the
selected text, or the empty string when the document has no selection.
Dereferences `self._plugin`, `self._window` and the active document. -/
def HighlightTextWindowHelper.get_text_selection (h : HighlightTextWindowHelper)
    (s : GState) : Except PErr String :=
  if h.plugin = false then .error PErr.attributeError
  else
    match h.window with
    | none => .error PErr.attributeError
    | some wid =>
      match (s.windows wid).activeDocument with
      | none => .error PErr.attributeError
      | some doc =>
        if doc.get_has_selection then .ok doc.selected_text
        else .ok ""

/-- HighlightTextWindowHelper._highlight_selection (lines 221-229): reads the
active document, reads the selection via `_get_text_selection`, and calls
`doc.set_search_text(text, gedit.SEARCH_CASE_SENSITIVE)`.  No presence check
on the document: when it is `None` the operation raises (inside
`_get_text_selection`, at `doc.get_has_selection()`). -/
def HighlightTextWindowHelper.highlight_selection (h : HighlightTextWindowHelper)
    (s : GState) : GState × Option PErr :=
  if h.plugin = false then (s, some PErr.attributeError)
  else
    match h.window with
    | none => (s, some PErr.attributeError)
    | some wid =>
      match HighlightTextWindowHelper.get_text_selection h s with
      | .error e => (s, some e)
      | .ok text =>
        match (s.windows wid).activeDocument with
        | none => (s, some PErr.attributeError)
        | some doc =>
          let doc2 := doc.set_search_text text SEARCH_CASE_SENSITIVE
          (s.setWindow wid { s.windows wid with activeDocument := some doc2 }, none)

/-- HighlightTextWindowHelper._insert_menu together with `__init__`
(lines 134-152 and 155-191): sets the four attributes, creates a fresh gtk
action group (sensitive by default), inserts it into the window's UI manager,
adds the menu ui string obtaining a fresh merge id, then calls
`self.update_ui(self._window)`.  That nested call cannot raise (all four
attributes were just set), so its state is taken directly. -/
def HighlightTextWindowHelper.construct (s : GState) (winId : Nat) :
    GState × HighlightTextWindowHelper :=
  let gid := s.nextGroupId
  let ws := s.windows winId
  let mid := ws.nextMergeId
  let ws1 := { ws with
    managerGroups := ws.managerGroups ++ [gid],
    managerUis := ws.managerUis ++ [mid],
    nextMergeId := mid + 1 }
  let s1 := { s.setWindow winId ws1 with
    agSensitive := updFn s.agSensitive gid true,
    nextGroupId := gid + 1 }
  let h : HighlightTextWindowHelper :=
    { window := some winId, plugin := true, ui_id := some mid, action_group := some gid }
  ((HighlightTextWindowHelper.update_ui h winId s1).1, h)

/-- HighlightTextWindowHelper._remove_menu (lines 193-200):
`manager.remove_ui(self._ui_id)` then `manager.remove_action_group(self._action_group)`
then `manager.ensure_update()` (a pure UI refresh, no modelled state).  Passing
`None` to a manager call raises TypeError; note the remove_ui mutation has
already happened when remove_action_group raises. -/
def HighlightTextWindowHelper.remove_menu (h : HighlightTextWindowHelper)
    (s : GState) : GState × Option PErr :=
  if h.plugin = false then (s, some PErr.attributeError)
  else
    match h.window with
    | none => (s, some PErr.attributeError)
    | some wid =>
      match h.ui_id with
      | none => (s, some PErr.typeError)
      | some mid =>
        let ws := s.windows wid
        let s1 := s.setWindow wid { ws with managerUis := ws.managerUis.filter (fun x => x ≠ mid) }
        match h.action_group with
        | none => (s1, some PErr.typeError)
        | some gid =>
          let ws1 := s1.windows wid
          (s1.setWindow wid { ws1 with managerGroups := ws1.managerGroups.filter (fun x => x ≠ gid) }, none)

/-- HighlightTextWindowHelper.deactivate (lines 202-209): `_remove_menu`, then
`self._action_group = None`, `self._plugin = None`, `self._window = None`.
The `_ui_id` attribute is left untouched by the source.  Returns the state,
the helper object after the call, and the error if one was raised. -/
def HighlightTextWindowHelper.deactivate (h : HighlightTextWindowHelper)
    (s : GState) : GState × HighlightTextWindowHelper × Option PErr :=
  if h.plugin = false then (s, h, some PErr.attributeError)
  else
    let r := HighlightTextWindowHelper.remove_menu h s
    match r.2 with
    | some e => (r.1, h, some e)
    | none => (r.1, { h with action_group := none, plugin := false, window := none }, none)

/-- HighlightTextPlugin.activate (lines 77-80):
`self._instances[window] = HighlightTextWindowHelper(self, window)`.  The
constructor runs first, then the dict assignment. -/
def HighlightTextPlugin.activate (s : GState) (w : Nat) : GState :=
  let r := HighlightTextWindowHelper.construct s w
  { r.1 with instances := dictSet r.1.instances w r.2 }

/-- HighlightTextPlugin.deactivate (lines 82-86):
`self._instances[window].deactivate()` then `del self._instances[window]`.
A missing key raises KeyError at the lookup.  When the helper's deactivate
raises, the deletion is never reached and the dict still holds the (unchanged)
helper object. -/
def HighlightTextPlugin.deactivate (s : GState) (w : Nat) : GState × Option PErr :=
  match pyLookup w s.instances with
  | none => (s, some PErr.keyError)
  | some h =>
    let r := HighlightTextWindowHelper.deactivate h s
    match r.2.2 with
    | some e => ({ r.1 with instances := dictSet r.1.instances w r.2.1 }, some e)
    | none => ({ r.1 with instances := dictDel r.1.instances w }, none)

/-- HighlightTextPlugin.update_ui (lines 88-91):
`self._instances[window].update_ui(window)`. -/
def HighlightTextPlugin.update_ui (s : GState) (w : Nat) : GState × Option PErr :=
  match pyLookup w s.instances with
  | none => (s, some PErr.keyError)
  | some h => HighlightTextWindowHelper.update_ui h w s

/-- HighlightTextPlugin.is_configurable (lines 93-96): `return False`. -/
def HighlightTextPlugin.is_configurable (_s : GState) : Bool :=
  false

/-- A host lifecycle event delivered to the plugin root. -/
inductive Ev where
  | act : Nat → Ev
  | deact : Nat → Ev
deriving DecidableEq, Repr

/-- Run a sequence of host activate/deactivate calls on the plugin root.  A
raise in a deactivate propagates to the host; the host state at that moment is
carried on. -/
def HighlightTextPlugin.runEvents : GState → List Ev → GState
  | s, [] => s
  | s, Ev.act w :: r => HighlightTextPlugin.runEvents (HighlightTextPlugin.activate s w) r
  | s, Ev.deact w :: r => HighlightTextPlugin.runEvents (HighlightTextPlugin.deactivate s w).1 r

/-- Legality of an event sequence, tracking the currently activated window
set: each activate uses a window not currently activated, each deactivate a
currently activated one. -/
def legalEvents : List Nat → List Ev → Bool
  | _, [] => true
  | dom, Ev.act w :: r => !(decide (w ∈ dom)) && legalEvents (dom ++ [w]) r
  | dom, Ev.deact w :: r => decide (w ∈ dom) && legalEvents (dom.filter (fun k => k ≠ w)) r

/-- The windows activated and not since deactivated, starting from a given
active set, in activation order. -/
def activeAfter : List Nat → List Ev → List Nat
  | dom, [] => dom
  | dom, Ev.act w :: r => activeAfter (dom ++ [w]) r
  | dom, Ev.deact w :: r => activeAfter (dom.filter (fun k => k ≠ w)) r

/-- A helper whose four attributes are all populated (as after construction). -/
def goodHelper (h : HighlightTextWindowHelper) : Prop :=
  h.plugin = true ∧ h.window.isSome ∧ h.ui_id.isSome ∧ h.action_group.isSome

/-- Invariant on the plugin root state: dict keys are distinct and every
stored helper is fully populated. -/
def PluginInv (s : GState) : Prop :=
  (keys s.instances).Nodup ∧ ∀ p ∈ s.instances, goodHelper p.2

/-! Concrete host states used as evaluation inputs. -/

/-- A document whose selection is the string "foo". -/
def doc_foo : Document :=
  { hasSelection := true, selectionText := "foo", searchText := none }

/-- A document with no selection. -/
def doc_nosel : Document :=
  { hasSelection := false, selectionText := "", searchText := none }

/-- An editable view. -/
def view_edit : View :=
  { editable := true }

/-- Window with a "foo"-selection document and an editable view. -/
def ws_foo : WindowState :=
  { activeDocument := some doc_foo, activeView := some view_edit,
    managerGroups := [], managerUis := [], nextMergeId := 0 }

/-- Window with a selection-free document and an editable view. -/
def ws_nosel : WindowState :=
  { activeDocument := some doc_nosel, activeView := some view_edit,
    managerGroups := [], managerUis := [], nextMergeId := 0 }

/-- Window with no active document. -/
def ws_nodoc : WindowState :=
  { activeDocument := none, activeView := none,
    managerGroups := [], managerUis := [], nextMergeId := 0 }

/-- Base state: every window shows `ws_foo`, no helpers registered. -/
def gs0 : GState :=
  { windows := fun _ => ws_foo, agSensitive := fun _ => false,
    nextGroupId := 0, instances := [] }

/-- State whose windows have a document without selection. -/
def gs_nosel : GState :=
  { windows := fun _ => ws_nosel, agSensitive := fun _ => false,
    nextGroupId := 0, instances := [] }

/-- State whose windows have no document. -/
def gs_nodoc : GState :=
  { windows := fun _ => ws_nodoc, agSensitive := fun _ => false,
    nextGroupId := 0, instances := [] }

/-- A fully populated helper attached to window 0. -/
def hlp1 : HighlightTextWindowHelper :=
  { window := some 0, plugin := true, ui_id := some 5, action_group := some 7 }

/- ------------------------------------------------------------------ -/

/-- Claim C8: the plugin root's is_configurable always returns false,
regardless of the plugin's state. -/
theorem C8_is_configurable_false (s : GState) :
    HighlightTextPlugin.is_configurable s = false :=
  rfl

/-- Claim C10: the helper's update_ui ignores its window argument — two calls
on the same helper and state with different window arguments return the same
result state and error. -/
theorem C10_update_ui_ignores_window_arg (h : HighlightTextWindowHelper)
    (s : GState) (w1 w2 : Nat) :
    HighlightTextWindowHelper.update_ui h w1 s = HighlightTextWindowHelper.update_ui h w2 s :=
  rfl

/-- Claim C6: deactivating a window with no helper in the mapping raises
KeyError and leaves the state (in particular the mapping) unchanged. -/
theorem C6_deactivate_missing_key (s : GState) (w : Nat)
    (hnone : pyLookup w s.instances = none) :
    HighlightTextPlugin.deactivate s w = (s, some PErr.keyError) := by
  simp [HighlightTextPlugin.deactivate, hnone]

/-- Witness for C6 at the empty mapping. -/
theorem C6_witness :
    HighlightTextPlugin.deactivate gs0 0 = (gs0, some PErr.keyError) :=
  C6_deactivate_missing_key gs0 0 rfl

/-- Claim C1: when the active document's selection is "foo",
highlight_selection succeeds and sets the document's search text to "foo"
with the case-sensitive flag set and the whole-word flag unset. -/
theorem C1_highlight_selection_foo (h : HighlightTextWindowHelper) (s : GState)
    (wid : Nat) (doc : Document)
    (hp : h.plugin = true) (hw : h.window = some wid)
    (hd : (s.windows wid).activeDocument = some doc)
    (hsel : doc.hasSelection = true) (htext : doc.selectionText = "foo") :
    (HighlightTextWindowHelper.highlight_selection h s).2 = none ∧
    ((HighlightTextWindowHelper.highlight_selection h s).1.windows wid).activeDocument =
      some { doc with searchText := some ("foo", { caseSensitive := true, entireWord := false }) } := by
  simp [HighlightTextWindowHelper.highlight_selection,
        HighlightTextWindowHelper.get_text_selection, hp, hw, hd,
        Document.get_has_selection, hsel, Document.selected_text, htext,
        Document.set_search_text, SEARCH_CASE_SENSITIVE, GState.setWindow, updFn]

/-- Witness for C1 on a concrete state. -/
theorem C1_witness :
    (HighlightTextWindowHelper.highlight_selection hlp1 gs0).2 = none ∧
    ((HighlightTextWindowHelper.highlight_selection hlp1 gs0).1.windows 0).activeDocument =
      some { doc_foo with searchText := some ("foo", { caseSensitive := true, entireWord := false }) } :=
  C1_highlight_selection_foo hlp1 gs0 0 doc_foo rfl rfl rfl rfl rfl

/-- Claim C2: when the active document exists but has no selection,
highlight_selection sets the search text to the empty string with the same
flags (case-sensitive set, whole-word unset). -/
theorem C2_highlight_selection_empty (h : HighlightTextWindowHelper) (s : GState)
    (wid : Nat) (doc : Document)
    (hp : h.plugin = true) (hw : h.window = some wid)
    (hd : (s.windows wid).activeDocument = some doc)
    (hsel : doc.hasSelection = false) :
    (HighlightTextWindowHelper.highlight_selection h s).2 = none ∧
    ((HighlightTextWindowHelper.highlight_selection h s).1.windows wid).activeDocument =
      some { doc with searchText := some ("", { caseSensitive := true, entireWord := false }) } := by
  simp [HighlightTextWindowHelper.highlight_selection,
        HighlightTextWindowHelper.get_text_selection, hp, hw, hd,
        Document.get_has_selection, hsel,
        Document.set_search_text, SEARCH_CASE_SENSITIVE, GState.setWindow, updFn]

/-- Witness for C2 on a concrete state. -/
theorem C2_witness :
    (HighlightTextWindowHelper.highlight_selection hlp1 gs_nosel).2 = none ∧
    ((HighlightTextWindowHelper.highlight_selection hlp1 gs_nosel).1.windows 0).activeDocument =
      some { doc_nosel with searchText := some ("", { caseSensitive := true, entireWord := false }) } :=
  C2_highlight_selection_empty hlp1 gs_nosel 0 doc_nosel rfl rfl rfl rfl

/-- Claim C7: invoking highlight_selection while the window has no active
document raises (AttributeError on the None dereference) and leaves the state
unchanged: no search text is set. -/
theorem C7_highlight_no_document (h : HighlightTextWindowHelper) (s : GState)
    (wid : Nat)
    (hp : h.plugin = true) (hw : h.window = some wid)
    (hd : (s.windows wid).activeDocument = none) :
    HighlightTextWindowHelper.highlight_selection h s = (s, some PErr.attributeError) := by
  simp [HighlightTextWindowHelper.highlight_selection,
        HighlightTextWindowHelper.get_text_selection, hp, hw, hd]

/-- Witness for C7 on a concrete state with no document. -/
theorem C7_witness :
    HighlightTextWindowHelper.highlight_selection hlp1 gs_nodoc = (gs_nodoc, some PErr.attributeError) :=
  C7_highlight_no_document hlp1 gs_nodoc 0 rfl rfl rfl

/-- Claim C5: update_ui enables the action group exactly when the window has
an active document and an active, editable view; otherwise it returns with
the state — in particular the sensitivity heap — unchanged (it never
explicitly disables). -/
theorem C5_update_ui_sensitivity (h : HighlightTextWindowHelper) (warg : Nat)
    (s : GState) (wid gid : Nat)
    (hp : h.plugin = true) (hw : h.window = some wid) (ha : h.action_group = some gid) :
    (((∃ doc, (s.windows wid).activeDocument = some doc) ∧
      (∃ v, (s.windows wid).activeView = some v ∧ v.editable = true)) →
      HighlightTextWindowHelper.update_ui h warg s = (s.setSensitive gid true, none)) ∧
    ((¬ ((∃ doc, (s.windows wid).activeDocument = some doc) ∧
      (∃ v, (s.windows wid).activeView = some v ∧ v.editable = true))) →
      HighlightTextWindowHelper.update_ui h warg s = (s, none)) := by
  constructor
  · rintro ⟨⟨doc, hdoc⟩, v, hv, hed⟩
    simp [HighlightTextWindowHelper.update_ui, hp, hw, hdoc, hv, View.get_editable, hed, ha]
  · intro hneg
    cases hdoc : (s.windows wid).activeDocument with
    | none => simp [HighlightTextWindowHelper.update_ui, hp, hw, hdoc]
    | some doc =>
      cases hv : (s.windows wid).activeView with
      | none => simp [HighlightTextWindowHelper.update_ui, hp, hw, hdoc, hv]
      | some v =>
        cases hed : v.editable with
        | false => simp [HighlightTextWindowHelper.update_ui, hp, hw, hdoc, hv, View.get_editable, hed]
        | true => exact absurd ⟨⟨doc, hdoc⟩, v, hv, hed⟩ hneg

/-- Witness for C5: on a window with a document and an editable view, the
action group is enabled. -/
theorem C5_witness :
    HighlightTextWindowHelper.update_ui hlp1 3 gs0 = (gs0.setSensitive 7 true, none) :=
  (C5_update_ui_sensitivity hlp1 3 gs0 0 7 rfl rfl rfl).1 ⟨⟨doc_foo, rfl⟩, view_edit, rfl, rfl⟩

/-- Counterexample to claim C4 as stated: deactivating the fully populated
helper `hlp1` leaves its `ui_id` attribute set (the source clears only
`_action_group`, `_plugin` and `_window`, lines 207-209), so not all four
internal reference fields are cleared. -/
theorem C4_counterexample :
    (HighlightTextWindowHelper.deactivate hlp1 gs0).2.1.ui_id ≠ none := by
  decide

/-- Claim C4 (amended): after deactivate on a fully populated helper, the menu
entry (merge id) and the action group are removed from the window's UI
manager, and the plugin, window and action-group fields are cleared — but the
UI identifier field retains its pre-call value. -/
theorem C4_deactivate_amended (h : HighlightTextWindowHelper) (s : GState)
    (wid mid gid : Nat)
    (hp : h.plugin = true) (hw : h.window = some wid)
    (hu : h.ui_id = some mid) (ha : h.action_group = some gid) :
    (HighlightTextWindowHelper.deactivate h s).2.2 = none ∧
    mid ∉ (((HighlightTextWindowHelper.deactivate h s).1.windows wid).managerUis) ∧
    gid ∉ (((HighlightTextWindowHelper.deactivate h s).1.windows wid).managerGroups) ∧
    (HighlightTextWindowHelper.deactivate h s).2.1.action_group = none ∧
    (HighlightTextWindowHelper.deactivate h s).2.1.plugin = false ∧
    (HighlightTextWindowHelper.deactivate h s).2.1.window = none ∧
    (HighlightTextWindowHelper.deactivate h s).2.1.ui_id = some mid := by
  simp [HighlightTextWindowHelper.deactivate, HighlightTextWindowHelper.remove_menu,
        hp, hw, hu, ha, GState.setWindow, updFn, List.mem_filter]

/-- Witness for the amended C4 on a concrete state. -/
theorem C4_witness :
    (HighlightTextWindowHelper.deactivate hlp1 gs0).2.2 = none ∧
    5 ∉ (((HighlightTextWindowHelper.deactivate hlp1 gs0).1.windows 0).managerUis) ∧
    7 ∉ (((HighlightTextWindowHelper.deactivate hlp1 gs0).1.windows 0).managerGroups) ∧
    (HighlightTextWindowHelper.deactivate hlp1 gs0).2.1.action_group = none ∧
    (HighlightTextWindowHelper.deactivate hlp1 gs0).2.1.plugin = false ∧
    (HighlightTextWindowHelper.deactivate hlp1 gs0).2.1.window = none ∧
    (HighlightTextWindowHelper.deactivate hlp1 gs0).2.1.ui_id = some 5 :=
  C4_deactivate_amended hlp1 gs0 0 5 7 rfl rfl rfl rfl

/-- remove_menu only touches the window's UI manager: the mapping is
untouched. -/
theorem remove_menu_instances (h : HighlightTextWindowHelper) (s : GState) :
    ((HighlightTextWindowHelper.remove_menu h s).1).instances = s.instances := by
  unfold HighlightTextWindowHelper.remove_menu
  repeat' split
  all_goals rfl

/-- The helper's deactivate never touches the mapping. -/
theorem helper_deactivate_instances (h : HighlightTextWindowHelper) (s : GState) :
    ((HighlightTextWindowHelper.deactivate h s).1).instances = s.instances := by
  by_cases hp : h.plugin = false
  · simp [HighlightTextWindowHelper.deactivate, hp]
  · rcases hr : (HighlightTextWindowHelper.remove_menu h s).2 with _ | e2
    · simp [HighlightTextWindowHelper.deactivate, hp, hr, remove_menu_instances]
    · simp [HighlightTextWindowHelper.deactivate, hp, hr, remove_menu_instances]

/-- When the helper's deactivate raises, the attribute-clearing assignments
were never reached: the helper object is unchanged. -/
theorem helper_deactivate_error_helper (h : HighlightTextWindowHelper) (s : GState)
    (e : PErr) (herr : (HighlightTextWindowHelper.deactivate h s).2.2 = some e) :
    (HighlightTextWindowHelper.deactivate h s).2.1 = h := by
  by_cases hp : h.plugin = false
  · simp [HighlightTextWindowHelper.deactivate, hp]
  · rcases hr : (HighlightTextWindowHelper.remove_menu h s).2 with _ | e2
    · simp [HighlightTextWindowHelper.deactivate, hp, hr] at herr
    · simp [HighlightTextWindowHelper.deactivate, hp, hr]

/-- A key absent from the key list is not found by lookup, and conversely. -/
theorem pyLookup_eq_none (w : Nat) (m : List (Nat × HighlightTextWindowHelper)) :
    pyLookup w m = none ↔ w ∉ keys m := by
  induction m with
  | nil => simp [pyLookup, keys]
  | cons a t ih =>
    rcases a with ⟨k, v⟩
    rw [pyLookup]
    by_cases hk : k = w
    · subst hk
      simp [keys]
    · rw [if_neg hk, ih]
      simp only [keys, List.map_cons, List.mem_cons, not_or]
      constructor
      · intro hnot
        exact ⟨fun hc => hk hc.symm, hnot⟩
      · intro hand
        exact hand.2

/-- Lookup succeeds exactly on present keys. -/
theorem pyLookup_isSome (w : Nat) (m : List (Nat × HighlightTextWindowHelper)) :
    (pyLookup w m).isSome = true ↔ w ∈ keys m := by
  rw [← Option.ne_none_iff_isSome]
  constructor
  · intro hne
    by_contra hmem
    exact hne ((pyLookup_eq_none w m).2 hmem)
  · intro hmem hnone
    exact (pyLookup_eq_none w m).1 hnone hmem

/-- A successful lookup returns an entry of the list. -/
theorem pyLookup_mem (w : Nat) (m : List (Nat × HighlightTextWindowHelper))
    (h : HighlightTextWindowHelper) (hl : pyLookup w m = some h) : (w, h) ∈ m := by
  induction m with
  | nil => cases hl
  | cons a t ih =>
    rcases a with ⟨k, v⟩
    rw [pyLookup] at hl
    by_cases hk : k = w
    · rw [if_pos hk] at hl
      injection hl with hvh
      subst hvh
      subst hk
      exact List.mem_cons_self _ _
    · rw [if_neg hk] at hl
      exact List.mem_cons_of_mem _ (ih hl)

/-- Replacing entries keyed by an absent key changes nothing. -/
theorem mapRepl_id (m : List (Nat × HighlightTextWindowHelper)) (w : Nat)
    (h : HighlightTextWindowHelper) (hw : w ∉ keys m) :
    m.map (fun p => if p.1 = w then (w, h) else p) = m := by
  induction m with
  | nil => rfl
  | cons a t ih =>
    simp only [keys, List.map_cons, List.mem_cons] at hw
    push_neg at hw
    rw [List.map_cons, if_neg (fun hc => hw.1 hc.symm), ih (by simpa [keys] using hw.2)]

/-- Mapping the key-w replacement over a duplicate-free dict that already
maps w to the replacement value changes nothing. -/
theorem mapRepl_self (m : List (Nat × HighlightTextWindowHelper)) (w : Nat)
    (h : HighlightTextWindowHelper) (hl : pyLookup w m = some h)
    (hnd : (keys m).Nodup) :
    m.map (fun p => if p.1 = w then (w, h) else p) = m := by
  induction m with
  | nil => cases hl
  | cons a t ih =>
    rcases a with ⟨k, v⟩
    simp only [keys, List.map_cons, List.nodup_cons] at hnd
    rw [pyLookup] at hl
    by_cases hk : k = w
    · rw [if_pos hk] at hl
      injection hl with hvh
      subst hvh
      subst hk
      simp only [List.map_cons]
      rw [mapRepl_id t k v hnd.1]
      simp
    · rw [if_neg hk] at hl
      rw [List.map_cons, if_neg hk, ih hl hnd.2]

/-- Writing back the very value a key already maps to leaves a duplicate-free
dict unchanged. -/
theorem dictSet_self (m : List (Nat × HighlightTextWindowHelper)) (w : Nat)
    (h : HighlightTextWindowHelper) (hl : pyLookup w m = some h)
    (hnd : (keys m).Nodup) : dictSet m w h = m := by
  unfold dictSet
  rw [hl]
  exact mapRepl_self m w h hl hnd

/-- Claim C9: when the helper's deactivate raises, the plugin root's
deactivate propagates the error and the mapping is unchanged — the entry is
still present. -/
theorem C9_deactivate_error_keeps_entry (s : GState) (w : Nat)
    (h : HighlightTextWindowHelper) (e : PErr)
    (hl : pyLookup w s.instances = some h)
    (hnd : (keys s.instances).Nodup)
    (herr : (HighlightTextWindowHelper.deactivate h s).2.2 = some e) :
    (HighlightTextPlugin.deactivate s w).1.instances = s.instances ∧
    (HighlightTextPlugin.deactivate s w).2 = some e := by
  have hins := helper_deactivate_instances h s
  have h21 := helper_deactivate_error_helper h s e herr
  simp only [HighlightTextPlugin.deactivate, hl]
  rw [herr]
  constructor
  · simp only []
    rw [hins, h21]
    exact dictSet_self s.instances w h hl hnd
  · rfl

/-- A still-populated-but-stale helper: `_window` is None, so its deactivate
raises before reaching the menu removal. -/
def hlp_bad : HighlightTextWindowHelper :=
  { window := none, plugin := true, ui_id := none, action_group := none }

/-- State whose mapping holds `hlp_bad` under key 4. -/
def gs_bad : GState :=
  { windows := fun _ => ws_foo, agSensitive := fun _ => false,
    nextGroupId := 0, instances := [(4, hlp_bad)] }

/-- Witness for C9: deactivating window 4 of `gs_bad` raises inside the
helper's deactivate and the mapping keeps its entry. -/
theorem C9_witness :
    (HighlightTextPlugin.deactivate gs_bad 4).1.instances = gs_bad.instances ∧
    (HighlightTextPlugin.deactivate gs_bad 4).2 = some PErr.attributeError :=
  C9_deactivate_error_keeps_entry gs_bad 4 hlp_bad PErr.attributeError rfl (by decide) rfl

/-- update_ui only touches the sensitivity heap: the mapping is untouched. -/
theorem update_ui_instances (h : HighlightTextWindowHelper) (w : Nat) (s : GState) :
    ((HighlightTextWindowHelper.update_ui h w s).1).instances = s.instances := by
  by_cases hp : h.plugin = false
  · simp [HighlightTextWindowHelper.update_ui, hp]
  · cases hw : h.window with
    | none => simp [HighlightTextWindowHelper.update_ui, hp, hw]
    | some wid =>
      cases hd : (s.windows wid).activeDocument with
      | none => simp [HighlightTextWindowHelper.update_ui, hp, hw, hd]
      | some doc =>
        cases hv : (s.windows wid).activeView with
        | none => simp [HighlightTextWindowHelper.update_ui, hp, hw, hd, hv]
        | some v =>
          cases he : v.get_editable with
          | false => simp [HighlightTextWindowHelper.update_ui, hp, hw, hd, hv, he]
          | true =>
            cases hg : h.action_group with
            | none => simp [HighlightTextWindowHelper.update_ui, hp, hw, hd, hv, he, hg]
            | some gid =>
              simp [HighlightTextWindowHelper.update_ui, hp, hw, hd, hv, he, hg,
                    GState.setSensitive]

/-- The helper object produced by construction: all four attributes set, with
the fresh merge id and the fresh action-group id. -/
theorem construct_helper (s : GState) (w : Nat) :
    (HighlightTextWindowHelper.construct s w).2 =
      { window := some w, plugin := true, ui_id := some ((s.windows w).nextMergeId),
        action_group := some s.nextGroupId } :=
  rfl

/-- Construction never touches the mapping (the plugin root stores the helper
afterwards). -/
theorem construct_instances (s : GState) (w : Nat) :
    ((HighlightTextWindowHelper.construct s w).1).instances = s.instances := by
  simp only [HighlightTextWindowHelper.construct]
  rw [update_ui_instances]
  rfl

/-- The plugin root's activate stores the freshly constructed helper under the
window key and changes nothing else of the mapping. -/
theorem activate_instances (s : GState) (w : Nat) :
    (HighlightTextPlugin.activate s w).instances =
      dictSet s.instances w (HighlightTextWindowHelper.construct s w).2 := by
  simp only [HighlightTextPlugin.activate]
  rw [construct_instances]

/-- Assigning an absent key appends the entry. -/
theorem dictSet_notmem (m : List (Nat × HighlightTextWindowHelper)) (w : Nat)
    (h : HighlightTextWindowHelper) (hw : w ∉ keys m) :
    dictSet m w h = m ++ [(w, h)] := by
  unfold dictSet
  rw [(pyLookup_eq_none w m).2 hw]

/-- Keys of an appended singleton. -/
theorem keys_append_single (m : List (Nat × HighlightTextWindowHelper)) (w : Nat)
    (h : HighlightTextWindowHelper) :
    keys (m ++ [(w, h)]) = keys m ++ [w] := by
  simp [keys]

/-- Keys of a deletion: the key is filtered out. -/
theorem keys_dictDel (m : List (Nat × HighlightTextWindowHelper)) (w : Nat) :
    keys (dictDel m w) = (keys m).filter (fun k => k ≠ w) := by
  induction m with
  | nil => rfl
  | cons a t ih =>
    rcases a with ⟨k, v⟩
    by_cases hk : k = w <;>
      simp [dictDel, keys, List.filter_cons, hk] <;>
      simpa [dictDel, keys] using ih

/-- Entries surviving a deletion were entries before. -/
theorem mem_dictDel (m : List (Nat × HighlightTextWindowHelper)) (w : Nat)
    (p : Nat × HighlightTextWindowHelper) (hp : p ∈ dictDel m w) : p ∈ m :=
  (List.mem_filter.mp hp).1

/-- A fully populated helper deactivates without raising. -/
theorem helper_deactivate_good (h : HighlightTextWindowHelper) (s : GState)
    (wid mid gid : Nat)
    (hp : h.plugin = true) (hw : h.window = some wid)
    (hu : h.ui_id = some mid) (ha : h.action_group = some gid) :
    (HighlightTextWindowHelper.deactivate h s).2.2 = none := by
  simp [HighlightTextWindowHelper.deactivate, HighlightTextWindowHelper.remove_menu,
        hp, hw, hu, ha]

/-- Deactivating a window whose mapped helper is fully populated succeeds and
deletes exactly that key from the mapping. -/
theorem plugin_deactivate_good (s : GState) (w : Nat) (h : HighlightTextWindowHelper)
    (hl : pyLookup w s.instances = some h) (hg : goodHelper h) :
    (HighlightTextPlugin.deactivate s w).2 = none ∧
    (HighlightTextPlugin.deactivate s w).1.instances = dictDel s.instances w := by
  obtain ⟨hp, hwin, huid, hag⟩ := hg
  obtain ⟨wid, hwin⟩ := Option.isSome_iff_exists.mp hwin
  obtain ⟨mid, huid⟩ := Option.isSome_iff_exists.mp huid
  obtain ⟨gid, hag⟩ := Option.isSome_iff_exists.mp hag
  have hnone := helper_deactivate_good h s wid mid gid hp hwin huid hag
  have hins := helper_deactivate_instances h s
  simp only [HighlightTextPlugin.deactivate, hl]
  rw [hnone]
  exact ⟨rfl, by rw [hins]⟩

/-- The invariant holds after a legal activate and the key list gains the new
window at the end. -/
theorem activate_step (s : GState) (w : Nat) (hInv : PluginInv s)
    (hnotin : w ∉ keys s.instances) :
    keys (HighlightTextPlugin.activate s w).instances = keys s.instances ++ [w] ∧
    PluginInv (HighlightTextPlugin.activate s w) := by
  have hkeys : keys (HighlightTextPlugin.activate s w).instances = keys s.instances ++ [w] := by
    rw [activate_instances, dictSet_notmem _ _ _ hnotin, keys_append_single]
  refine ⟨hkeys, hkeys ▸ ?_, ?_⟩
  · rw [List.nodup_append]
    refine ⟨hInv.1, List.nodup_singleton w, ?_⟩
    intro a ha hb
    rw [List.mem_singleton] at hb
    exact hnotin (hb ▸ ha)
  · intro p hp
    rw [activate_instances, dictSet_notmem _ _ _ hnotin, List.mem_append] at hp
    rcases hp with hp | hp
    · exact hInv.2 p hp
    · rw [List.mem_singleton] at hp
      rw [hp, construct_helper]
      exact ⟨rfl, rfl, rfl, rfl⟩

/-- The invariant holds after a legal deactivate and the key list loses the
window. -/
theorem deactivate_step (s : GState) (w : Nat) (hInv : PluginInv s)
    (hin : w ∈ keys s.instances) :
    keys (HighlightTextPlugin.deactivate s w).1.instances =
      (keys s.instances).filter (fun k => k ≠ w) ∧
    PluginInv (HighlightTextPlugin.deactivate s w).1 := by
  obtain ⟨h, hl⟩ := Option.isSome_iff_exists.mp ((pyLookup_isSome w s.instances).mpr hin)
  have hg : goodHelper h := hInv.2 (w, h) (pyLookup_mem w s.instances h hl)
  have hstep := plugin_deactivate_good s w h hl hg
  have hkeys : keys (HighlightTextPlugin.deactivate s w).1.instances =
      (keys s.instances).filter (fun k => k ≠ w) := by
    rw [hstep.2, keys_dictDel]
  refine ⟨hkeys, hkeys ▸ hInv.1.filter _, ?_⟩
  intro p hp
  rw [hstep.2] at hp
  exact hInv.2 p (mem_dictDel _ _ _ hp)

/-- Running a legal event sequence from an invariant state: the final key list
is exactly the active set computed by `activeAfter`, and the invariant is
preserved. -/
theorem runEvents_spec (evs : List Ev) : ∀ (s : GState), PluginInv s →
    legalEvents (keys s.instances) evs = true →
    keys (HighlightTextPlugin.runEvents s evs).instances =
      activeAfter (keys s.instances) evs ∧
    PluginInv (HighlightTextPlugin.runEvents s evs) := by
  induction evs with
  | nil => exact fun s hInv _ => ⟨rfl, hInv⟩
  | cons ev r ih =>
    intro s hInv hleg
    cases ev with
    | act w =>
      rw [legalEvents, Bool.and_eq_true, Bool.not_eq_true', decide_eq_false_iff_not] at hleg
      obtain ⟨hnotin, hlegr⟩ := hleg
      obtain ⟨hkeys, hInv2⟩ := activate_step s w hInv hnotin
      have hrec := ih (HighlightTextPlugin.activate s w) hInv2 (by rw [hkeys]; exact hlegr)
      rw [hkeys] at hrec
      exact hrec
    | deact w =>
      rw [legalEvents, Bool.and_eq_true, decide_eq_true_eq] at hleg
      obtain ⟨hin, hlegr⟩ := hleg
      obtain ⟨hkeys, hInv2⟩ := deactivate_step s w hInv hin
      have hrec := ih (HighlightTextPlugin.deactivate s w).1 hInv2 (by rw [hkeys]; exact hlegr)
      rw [hkeys] at hrec
      exact hrec

/-- Claim C3: for every legal activate/deactivate sequence (each activate on a
window not currently activated, each deactivate on a currently activated one)
started from an empty mapping, the final mapping contains exactly the windows
activated and not since deactivated, with at most one helper per window
(duplicate-free keys). -/
theorem C3_activation_mapping (evs : List Ev) (s : GState)
    (h0 : s.instances = []) (hleg : legalEvents [] evs = true) :
    (∀ w, (pyLookup w (HighlightTextPlugin.runEvents s evs).instances).isSome = true ↔
       w ∈ activeAfter [] evs) ∧
    (keys (HighlightTextPlugin.runEvents s evs).instances).Nodup := by
  have hk0 : keys s.instances = [] := by rw [h0]; rfl
  have hInv : PluginInv s := by
    constructor
    · rw [hk0]
      exact List.nodup_nil
    · intro p hp
      rw [h0] at hp
      cases hp
  have hmain := runEvents_spec evs s hInv (by rw [hk0]; exact hleg)
  rw [hk0] at hmain
  refine ⟨fun w => ?_, hmain.2.1⟩
  rw [pyLookup_isSome, hmain.1]

/-- A concrete legal event sequence: open window 1, open window 2, close
window 1. -/
def evs3 : List Ev := [Ev.act 1, Ev.act 2, Ev.deact 1]

/-- Witness for C3 on the concrete sequence `evs3` from the empty mapping. -/
theorem C3_witness :
    legalEvents [] evs3 = true ∧
    (keys (HighlightTextPlugin.runEvents gs0 evs3).instances).Nodup :=
  ⟨by decide, (C3_activation_mapping evs3 gs0 rfl (by decide)).2⟩
